import Mathlib

/-!
Verification of the knowledge-backed decision engine of the SuiVisor
multi-agent DeFi wallet.

The development shallowly embeds the Python sources:
  * `agents/risk_analyzer/agent.py` — the risk scoring policy engine
    (`calculate_risk_score`, `handle_risk_check`) and the fallback
    predicate backend of `MeTTaRiskAnalyzer`;
  * `knowledge/metta_kg.py` — the triple store `KnowledgeGraph`
    (`add_fact`, `query`, `get_property`, `infer_best_dex`,
    `to_json` / `from_json`) and the seed knowledge base
    `create_sui_defi_knowledge_base`;
  * `shared/utils.py` — `validate_sui_address`.

Modelling conventions:
  * Python floats are embedded as exact rationals (`ℚ`); every constant in
    the risk engine is a short decimal and all comparisons are far from any
    IEEE rounding boundary, so the rational model is faithful to the
    decisions the Python code makes.  Numeric interpolation inside warning
    strings (`f"... {x} ..."`) is rendered with `toString` on `ℚ`, which
    abstracts Python float `repr`/`:.1f`/`:.2f` formatting; no claim below
    depends on the rendering of a number inside a message.
  * Python `Optional` fields are `Option`; Python truthiness of an optional
    float (resp. string) is `some x` with `x ≠ 0` (resp. `s ≠ ""`).
  * The Python `set` of fact triples is modelled as a `List` holding an
    enumeration of the set; `add_fact` inserts only when absent, which
    preserves set semantics while fixing insertion order as the (otherwise
    arbitrary) iteration order.
  * `json.dumps`/`json.loads` of the Python standard library are treated as
    exact mutual inverses on the JSON documents this code produces; the
    snapshot therefore serialises to a `JsonVal` tree rather than a byte
    string.
-/

/-- Embedding of `shared/models.py` `RiskCheckRequest`; `transaction_type`
(an enum) and all tokens are plain strings, floats are rationals. -/
structure RiskCheckRequest where
  transaction_type : String
  from_token : Option String := none
  to_token : Option String := none
  amount : ℚ
  recipient_address : Option String := none
  slippage_tolerance : Option ℚ := none
  estimated_gas : Option ℚ := none

/-- Embedding of `shared/models.py` `RiskCheckResponse`; `risk_level`
(an enum) is a plain string. -/
structure RiskCheckResponse where
  risk_level : String
  is_safe : Bool
  warnings : List String
  recommendations : List String
  confidence_score : ℚ
  reasoning : String

/-- Predicate backend interface consumed by `calculate_risk_score`
(the methods of `MeTTaRiskAnalyzer` in `agents/risk_analyzer/agent.py`,
abstracted over the symbolic/fallback choice; `initialized` is the flag
the reasoning string discloses). -/
structure Backend where
  initialized : Bool
  is_safe_gas : ℚ → Bool
  is_safe_slippage : ℚ → Bool
  is_safe_amount : String → ℚ → Bool
  is_trusted_token : String → Bool
  get_risk_level_from_score : ℚ → String

/-- Python `str.upper()` on the ASCII range (every token symbol the code
compares is ASCII), applied code point by code point. -/
def strUpper (s : String) : String :=
  String.mk (s.data.map Char.toUpper)

/-- Fallback amount limits, `agent.py` line 135:
`limits = {"SUI": 100, "USDC": 10000, "USDT": 10000}` with
`limits.get(token.upper(), 1000)`. -/
def amount_limit (t : String) : ℚ :=
  if t = "SUI" then 100
  else if t = "USDC" then 10000
  else if t = "USDT" then 10000
  else 1000

/-- Fallback backend (`initialized = False` branches of
`MeTTaRiskAnalyzer`, `agent.py` lines 113-168). -/
def fallbackBackend : Backend where
  initialized := false
  is_safe_gas := fun g => decide (0 < g ∧ g < 1/2)
  is_safe_slippage := fun s => decide (0 ≤ s ∧ s ≤ 5/100)
  is_safe_amount := fun t a => decide (1/100 < a ∧ a < amount_limit (strUpper t))
  is_trusted_token := fun t =>
    decide (strUpper t = "SUI" ∨ strUpper t = "USDC" ∨ strUpper t = "USDT")
  get_risk_level_from_score := fun s =>
    if s < 3/10 then "low"
    else if s < 6/10 then "medium"
    else if s < 8/10 then "high"
    else "critical"

/-- Warning text of check 1 (`agent.py` line 195). -/
def gasWarning (g : ℚ) : String :=
  "Gas amount " ++ toString g ++ " SUI exceeds safe limit"

/-- Recommendation text of check 1 (`agent.py` line 196). -/
def gasRecommendation : String :=
  "Reduce transaction complexity or check gas estimation"

/-- Warning text of check 2 (`agent.py` line 202). -/
def slippageWarning (s : ℚ) : String :=
  "Slippage tolerance " ++ toString (s * 100) ++ "% is high"

/-- Recommendation text of check 2 (`agent.py` line 203). -/
def slippageRecommendation : String :=
  "Reduce slippage or wait for better market conditions"

/-- Warning text of check 3 (`agent.py` line 210). -/
def amountWarning (a : ℚ) (t : String) : String :=
  "Transaction amount " ++ toString a ++ " " ++ t ++ " is outside safe range"

/-- Recommendation text of check 3 (`agent.py` line 211). -/
def amountRecommendation : String :=
  "Consider splitting into smaller transactions"

/-- Warning text of checks 4 and 5 (`agent.py` lines 216, 221). -/
def trustWarning (t : String) : String :=
  "Token " ++ t ++ " is not in trusted list"

/-- Recommendation text of checks 4 and 5 (`agent.py` lines 217, 222). -/
def trustRecommendation : String :=
  "Verify token contract address before proceeding"

/-- Recommendation text of check 5 (`agent.py` line 230). -/
def recipientRecommendation : String :=
  "Double-check the recipient address"

/-- Check 1 of `calculate_risk_score` (`agent.py` lines 191-196):
`if request.estimated_gas:` (Python truthiness, hence skipped at `0.0`)
then on `not is_safe_gas` add `0.3` with a warning and recommendation. -/
def gasCheck (b : Backend) (req : RiskCheckRequest) : ℚ × List String × List String :=
  match req.estimated_gas with
  | none => (0, [], [])
  | some g =>
    if g ≠ 0 ∧ b.is_safe_gas g = false then
      (3/10, [gasWarning g], [gasRecommendation])
    else (0, [], [])

/-- Check 2 of `calculate_risk_score` (`agent.py` lines 198-203). -/
def slippageCheck (b : Backend) (req : RiskCheckRequest) : ℚ × List String × List String :=
  match req.slippage_tolerance with
  | none => (0, [], [])
  | some s =>
    if s ≠ 0 ∧ b.is_safe_slippage s = false then
      (1/4, [slippageWarning s], [slippageRecommendation])
    else (0, [], [])

/-- The token the amount check consults, `agent.py` line 206:
`token_to_check = request.from_token or request.to_token`
(Python `or` takes the right operand when the left is `None` or `""`). -/
def token_to_check (req : RiskCheckRequest) : Option String :=
  match req.from_token with
  | some s => if s = "" then req.to_token else some s
  | none => req.to_token

/-- Check 3 of `calculate_risk_score` (`agent.py` lines 205-211). -/
def amountCheck (b : Backend) (req : RiskCheckRequest) : ℚ × List String × List String :=
  match token_to_check req with
  | none => (0, [], [])
  | some t =>
    if t ≠ "" ∧ b.is_safe_amount t req.amount = false then
      (1/4, [amountWarning req.amount t], [amountRecommendation])
    else (0, [], [])

/-- Check 4 of `calculate_risk_score` (`agent.py` lines 214-217):
`if request.from_token and not is_trusted_token(request.from_token)`. -/
def fromTokenCheck (b : Backend) (req : RiskCheckRequest) : ℚ × List String × List String :=
  match req.from_token with
  | none => (0, [], [])
  | some t =>
    if t ≠ "" ∧ b.is_trusted_token t = false then
      (3/10, [trustWarning t], [trustRecommendation])
    else (0, [], [])

/-- Check 4b of `calculate_risk_score` (`agent.py` lines 219-222). -/
def toTokenCheck (b : Backend) (req : RiskCheckRequest) : ℚ × List String × List String :=
  match req.to_token with
  | none => (0, [], [])
  | some t =>
    if t ≠ "" ∧ b.is_trusted_token t = false then
      (3/10, [trustWarning t], [trustRecommendation])
    else (0, [], [])

/-- Hex digit as accepted by the regex `[0-9a-fA-F]` of
`validate_sui_address` in `shared/utils.py`. -/
def isHexChar (c : Char) : Bool :=
  (decide (('0' : Char) ≤ c) && decide (c ≤ ('9' : Char)))
  || (decide (('a' : Char) ≤ c) && decide (c ≤ ('f' : Char)))
  || (decide (('A' : Char) ≤ c) && decide (c ≤ ('F' : Char)))

/-- Embedding of `shared/utils.py` `validate_sui_address` (lines 86-112):
empty check, `0x` prefix check, length-64 check on the remainder, and the
all-hex-digits check, each with its specific error message.  Python
strings are sequences of code points, embedded as the `data` list of a
Lean `String`; `address.startswith("0x")` is `take 2 = ['0', 'x']` and
`address[2:]` is `drop 2`. -/
def validate_sui_address (address : String) : Bool × Option String :=
  if address.data = [] then (false, some "Address is empty")
  else if address.data.take 2 ≠ ['0', 'x'] then (false, some "Address must start with 0x")
  else if (address.data.drop 2).length ≠ 64 then
    (false, some ("Address must be 64 hex characters (got "
      ++ toString (address.data.drop 2).length ++ ")"))
  else if (address.data.drop 2).all isHexChar = false then
    (false, some "Address contains invalid characters")
  else (true, none)

/-- Check 5 of `calculate_risk_score` (`agent.py` lines 224-230):
`if request.recipient_address:` then on invalid address add `0.5`. -/
def recipientCheck (req : RiskCheckRequest) : ℚ × List String × List String :=
  match req.recipient_address with
  | none => (0, [], [])
  | some a =>
    if a ≠ "" ∧ (validate_sui_address a).1 = false then
      match (validate_sui_address a).2 with
      | some err => (1/2, ["Invalid recipient address: " ++ err], [recipientRecommendation])
      | none => (1/2, ["Invalid recipient address: "], [recipientRecommendation])
    else (0, [], [])

/-- Embedding of `calculate_risk_score` (`agent.py` lines 179-239): the five
checks accumulate additive penalties, warnings and recommendations in
order; the score is capped at `1.0`; if no recommendation was produced a
single default recommendation is emitted. -/
def calculate_risk_score (b : Backend) (req : RiskCheckRequest) :
    ℚ × List String × List String :=
  let c1 := gasCheck b req
  let c2 := slippageCheck b req
  let c3 := amountCheck b req
  let c4 := fromTokenCheck b req
  let c5 := toTokenCheck b req
  let c6 := recipientCheck req
  let raw := c1.1 + c2.1 + c3.1 + c4.1 + c5.1 + c6.1
  let warnings := c1.2.1 ++ c2.2.1 ++ c3.2.1 ++ c4.2.1 ++ c5.2.1 ++ c6.2.1
  let recs := c1.2.2 ++ c2.2.2 ++ c3.2.2 ++ c4.2.2 ++ c5.2.2 ++ c6.2.2
  let score := min raw 1
  (score, warnings, if recs = [] then ["Transaction parameters look safe"] else recs)

/-- Embedding of `handle_risk_check` (`agent.py` lines 246-289): the
response packages the score through the backend classifier, the safety
verdict `risk_score < 0.6`, the confidence `1.0 - risk_score * 0.2` and
the reasoning string. -/
def handle_risk_check (b : Backend) (req : RiskCheckRequest) : RiskCheckResponse :=
  let r := calculate_risk_score b req
  let risk_score := r.1
  let risk_level := b.get_risk_level_from_score risk_score
  let is_safe := decide (risk_score < 6/10)
  let reasoning :=
    "MeTTa-based risk analysis: Score " ++ toString risk_score ++ "/1.0. "
    ++ (if b.initialized then "Evaluated against DeFi safety rules knowledge base. "
        else "Using fallback heuristics (MeTTa unavailable). ")
    ++ "Classification: " ++ risk_level ++ " risk. "
    ++ (if is_safe then "Transaction approved."
        else "Transaction flagged - manual review recommended.")
  { risk_level := risk_level
    is_safe := is_safe
    warnings := r.2.1
    recommendations := r.2.2
    confidence_score := 1 - risk_score * (2/10)
    reasoning := reasoning }

/-- Fact triple `(subject, predicate, object)` of `knowledge/metta_kg.py`. -/
abbrev Triple : Type := String × String × String

/-- JSON value tree; `json.dumps`/`json.loads` of the Python standard
library are modelled as exact mutual inverses, so `to_json` below produces
this tree instead of its textual rendering. -/
inductive JsonVal where
  | str : String → JsonVal
  | num : ℚ → JsonVal
  | arr : List JsonVal → JsonVal
  | obj : List (String × JsonVal) → JsonVal

/-- Embedding of `knowledge/metta_kg.py` `KnowledgeGraph`: the Python
`Set[Tuple[str, str, str]]` of facts is carried as a duplicate-free list
(an enumeration of the set, insertion-ordered); `rules` (a list of JSON
dictionaries) is carried as opaque JSON values. -/
structure KnowledgeGraph where
  facts : List Triple
  rules : List JsonVal

/-- Fresh `KnowledgeGraph()` (`metta_kg.py` lines 28-30). -/
def KnowledgeGraph.empty : KnowledgeGraph :=
  { facts := [], rules := [] }

/-- Embedding of `KnowledgeGraph.add_fact` (`metta_kg.py` lines 32-34):
`self.facts.add((subject, predicate, obj))`; set insertion is a no-op when
the triple is already present. -/
def KnowledgeGraph.add_fact (kg : KnowledgeGraph) (subject predicate obj : String) :
    KnowledgeGraph :=
  if (subject, predicate, obj) ∈ kg.facts then kg
  else { kg with facts := kg.facts ++ [(subject, predicate, obj)] }

/-- Embedding of `KnowledgeGraph.add_facts_batch` (`metta_kg.py` lines
36-39): repeated `add_fact`. -/
def KnowledgeGraph.add_facts_batch (kg : KnowledgeGraph) (facts : List Triple) :
    KnowledgeGraph :=
  facts.foldl (fun acc f => acc.add_fact f.1 f.2.1 f.2.2) kg

/-- Wildcard match on one triple position (`metta_kg.py` lines 55-57). -/
def matchField (pat : Option String) (v : String) : Bool :=
  match pat with
  | none => true
  | some x => x == v

/-- Embedding of `KnowledgeGraph.query` (`metta_kg.py` lines 41-59):
collects the facts matching the pattern, `none` acting as wildcard, in
iteration order. -/
def KnowledgeGraph.query (kg : KnowledgeGraph)
    (subject predicate obj : Option String) : List Triple :=
  kg.facts.filter (fun f =>
    matchField subject f.1 && matchField predicate f.2.1 && matchField obj f.2.2)

/-- Embedding of `KnowledgeGraph.get_property` (`metta_kg.py` lines 61-66):
object of the first matching fact, or `None`. -/
def KnowledgeGraph.get_property (kg : KnowledgeGraph) (subject predicate : String) :
    Option String :=
  match kg.query (some subject) (some predicate) none with
  | [] => none
  | f :: _ => some f.2.2

/-- Liquidity + risk score of one candidate venue inside `infer_best_dex`
(`metta_kg.py` lines 131-148). -/
def dexScore (kg : KnowledgeGraph) (pair dex : String) : ℤ :=
  (match kg.get_property dex ("liquidity_" ++ pair) with
   | some "high" => 10
   | some "medium" => 5
   | _ => 0)
  + (match kg.get_property dex "risk_level" with
     | some "low" => 10
     | some "medium" => 5
     | _ => 0)

/-- Python `max(items, key=snd)` on a nonempty sequence: the first element
whose key is maximal (a later element replaces the running best only when
strictly greater). -/
def maxBySnd (best : String × ℤ) : List (String × ℤ) → String × ℤ
  | [] => best
  | x :: xs => if best.2 < x.2 then maxBySnd x xs else maxBySnd best xs

/-- Embedding of `KnowledgeGraph.infer_best_dex` (`metta_kg.py` lines
112-153): find venues with a `supports_pair` fact for
`"{coin_in}/{coin_out}"`, score each, return the first highest scorer
(`scores` is a dict keyed by venue; supporting venues are pairwise
distinct because the fact set holds each `supports_pair` triple once, so
the dict enumerates in `supporting_dexes` order). -/
def KnowledgeGraph.infer_best_dex (kg : KnowledgeGraph) (coin_in coin_out : String) :
    Option String :=
  let pair := coin_in ++ "/" ++ coin_out
  let supporting_dexes := (kg.query none (some "supports_pair") (some pair)).map (fun f => f.1)
  match supporting_dexes with
  | [] => none
  | d :: ds =>
    let scores := (d :: ds).map (fun dex => (dex, dexScore kg pair dex))
    match scores with
    | [] => some d
    | s :: ss => some (maxBySnd s ss).1

/-- One fact rendered for the snapshot (`list(fact)` in `to_json`). -/
def factToJson (f : Triple) : JsonVal :=
  JsonVal.arr [JsonVal.str f.1, JsonVal.str f.2.1, JsonVal.str f.2.2]

/-- Embedding of `KnowledgeGraph.to_json` (`metta_kg.py` lines 176-181):
the document `{"facts": [[s, p, o], ...], "rules": [...]}` (the textual
`json.dumps` step is absorbed into the `JsonVal` tree). -/
def KnowledgeGraph.to_json (kg : KnowledgeGraph) : JsonVal :=
  JsonVal.obj [("facts", JsonVal.arr (kg.facts.map factToJson)),
               ("rules", JsonVal.arr kg.rules)]

/-- Decoding of one snapshot fact (`tuple(fact)` in `from_json`), on the
three-element string arrays `to_json` emits; other shapes are ignored. -/
def jsonToFact : JsonVal → Option Triple
  | JsonVal.arr [JsonVal.str a, JsonVal.str b, JsonVal.str c] => some (a, b, c)
  | _ => none

/-- Python `set(...)` construction from a list: keep the first occurrence
of each element. -/
def listToSet : List Triple → List Triple
  | [] => []
  | x :: xs => if x ∈ listToSet xs then listToSet xs else x :: listToSet xs

/-- Lookup with default over the fields of a JSON object
(`data.get(key, default)`). -/
def jsonGet (j : JsonVal) (key : String) (default : List JsonVal) : List JsonVal :=
  match j with
  | JsonVal.obj fields =>
    match fields.filter (fun kv => kv.1 == key) with
    | [] => default
    | (_, JsonVal.arr xs) :: _ => xs
    | _ => default
  | _ => default

/-- Embedding of `KnowledgeGraph.from_json` (`metta_kg.py` lines 183-187):
`self.facts = set(tuple(fact) for fact in data.get("facts", []))` and
`self.rules = data.get("rules", [])`. -/
def KnowledgeGraph.from_json (j : JsonVal) : KnowledgeGraph :=
  { facts := listToSet ((jsonGet j "facts" []).filterMap jsonToFact)
    rules := jsonGet j "rules" [] }

/-- DEX protocol facts of `create_sui_defi_knowledge_base`
(`metta_kg.py` lines 203-220). -/
def seedDexFacts : List Triple :=
  [("Cetus", "is_type", "DEX"),
   ("Cetus", "blockchain", "Sui"),
   ("Cetus", "protocol_type", "AMM"),
   ("Cetus", "risk_level", "low"),
   ("Cetus", "audited", "true"),
   ("Turbos", "is_type", "DEX"),
   ("Turbos", "blockchain", "Sui"),
   ("Turbos", "protocol_type", "AMM"),
   ("Turbos", "risk_level", "medium"),
   ("Turbos", "audited", "true"),
   ("Aftermath", "is_type", "DEX"),
   ("Aftermath", "blockchain", "Sui"),
   ("Aftermath", "protocol_type", "Aggregator"),
   ("Aftermath", "risk_level", "medium")]

/-- Token-pair and liquidity facts (`metta_kg.py` lines 223-243). -/
def seedPairFacts : List Triple :=
  [("Cetus", "supports_pair", "SUI/USDC"),
   ("Cetus", "liquidity_SUI/USDC", "high"),
   ("Cetus", "supports_pair", "SUI/USDT"),
   ("Cetus", "liquidity_SUI/USDT", "high"),
   ("Cetus", "supports_pair", "USDC/USDT"),
   ("Cetus", "liquidity_USDC/USDT", "medium"),
   ("Cetus", "supports_pair", "SUI/WAL"),
   ("Cetus", "liquidity_SUI/WAL", "medium"),
   ("Turbos", "supports_pair", "SUI/USDC"),
   ("Turbos", "liquidity_SUI/USDC", "medium"),
   ("Turbos", "supports_pair", "SUI/USDT"),
   ("Turbos", "liquidity_SUI/USDT", "low"),
   ("Aftermath", "aggregates", "Cetus"),
   ("Aftermath", "aggregates", "Turbos")]

/-- NFT marketplace facts (`metta_kg.py` lines 246-258). -/
def seedNftFacts : List Triple :=
  [("TradePort", "is_type", "NFT_Marketplace"),
   ("TradePort", "blockchain", "Sui"),
   ("TradePort", "supports_operation", "mint"),
   ("TradePort", "supports_operation", "transfer"),
   ("TradePort", "supports_operation", "list"),
   ("TradePort", "fee_percentage", "2.5"),
   ("BlueMove", "is_type", "NFT_Marketplace"),
   ("BlueMove", "blockchain", "Sui"),
   ("BlueMove", "supports_operation", "mint"),
   ("BlueMove", "fee_percentage", "2.0")]

/-- Token facts (`metta_kg.py` lines 261-299). -/
def seedTokenFacts : List Triple :=
  [("SUI", "is_type", "Token"),
   ("SUI", "symbol", "SUI"),
   ("SUI", "decimals", "9"),
   ("SUI", "is_native", "true"),
   ("SUI", "coin_type", "0x2::sui::SUI"),
   ("SUI", "address", "0x2::sui::SUI"),
   ("USDC", "is_type", "Token"),
   ("USDC", "symbol", "USDC"),
   ("USDC", "decimals", "6"),
   ("USDC", "is_stablecoin", "true"),
   ("USDC", "coin_type", "0x0588cff9a50e0eaf4cd50d337c1a36570bc1517793fd3303e1513e8ad4d2aa96::usdc::USDC"),
   ("USDC", "address", "0x0588cff9a50e0eaf4cd50d337c1a36570bc1517793fd3303e1513e8ad4d2aa96::usdc::USDC"),
   ("USDT", "is_type", "Token"),
   ("USDT", "symbol", "USDT"),
   ("USDT", "decimals", "6"),
   ("USDT", "is_stablecoin", "true"),
   ("USDT", "coin_type", "0x50b3637dde9471e36dcb8b7d147a9e8de50a777181e7f1b11598e28d7bebf8c4::usdt::USDT"),
   ("USDT", "address", "0x50b3637dde9471e36dcb8b7d147a9e8de50a777181e7f1b11598e28d7bebf8c4::usdt::USDT"),
   ("CETUS", "is_type", "Token"),
   ("CETUS", "symbol", "CETUS"),
   ("CETUS", "decimals", "9"),
   ("CETUS", "coin_type", "0xa6f859bee36f3882711be22cf468f0974eb318ec3b8fe9bcc5ed69311360a044::cetus::CETUS"),
   ("CETUS", "address", "0xa6f859bee36f3882711be22cf468f0974eb318ec3b8fe9bcc5ed69311360a044::cetus::CETUS"),
   ("WAL", "is_type", "Token"),
   ("WAL", "symbol", "WAL"),
   ("WAL", "decimals", "9"),
   ("WAL", "coin_type", "0x8270feb7375eee355e64fdb69c50abb6b5f9393a722883c1cf45f8e26048810a::wal::WAL"),
   ("WAL", "address", "0x8270feb7375eee355e64fdb69c50abb6b5f9393a722883c1cf45f8e26048810a::wal::WAL")]

/-- Operation and gas-estimate facts (`metta_kg.py` lines 302-318). -/
def seedOperationFacts : List Triple :=
  [("swap", "is_type", "Operation"),
   ("swap", "gas_estimate", "0.001"),
   ("swap", "requires_approval", "false"),
   ("mint_nft", "is_type", "Operation"),
   ("mint_nft", "gas_estimate", "0.01"),
   ("mint_nft", "requires_approval", "false"),
   ("transfer_nft", "is_type", "Operation"),
   ("transfer_nft", "gas_estimate", "0.002"),
   ("transfer_nft", "requires_approval", "false"),
   ("stake", "is_type", "Operation"),
   ("stake", "gas_estimate", "0.002"),
   ("stake", "requires_approval", "false")]

/-- Cetus protocol configuration facts (`metta_kg.py` lines 321-324). -/
def seedConfigFacts : List Triple :=
  [("Cetus", "global_config", "0x9774e359588ead122af1c7e7f64e14ade261cfeecdb5d0eb4a5b3b4c8ab8bd3e"),
   ("Cetus", "network", "testnet")]

/-- Embedding of `create_sui_defi_knowledge_base` (`metta_kg.py` lines
191-326): the six `add_facts_batch` calls in order. -/
def create_sui_defi_knowledge_base : KnowledgeGraph :=
  ((((((KnowledgeGraph.empty.add_facts_batch seedDexFacts).add_facts_batch
      seedPairFacts).add_facts_batch seedNftFacts).add_facts_batch
      seedTokenFacts).add_facts_batch seedOperationFacts).add_facts_batch
      seedConfigFacts)

/-- Outcome of the six penalty sites of `calculate_risk_score` (gas,
slippage, amount, source-token trust, destination-token trust, recipient
validity); `true` means the penalty fires. -/
structure RiskFlags where
  gas : Bool
  slippage : Bool
  amount : Bool
  fromTrust : Bool
  toTrust : Bool
  recipient : Bool

/-- Condition under which check 1 adds its penalty. -/
def gasFails (b : Backend) (req : RiskCheckRequest) : Bool :=
  match req.estimated_gas with
  | none => false
  | some g => decide (g ≠ 0 ∧ b.is_safe_gas g = false)

/-- Condition under which check 2 adds its penalty. -/
def slippageFails (b : Backend) (req : RiskCheckRequest) : Bool :=
  match req.slippage_tolerance with
  | none => false
  | some s => decide (s ≠ 0 ∧ b.is_safe_slippage s = false)

/-- Condition under which check 3 adds its penalty. -/
def amountFails (b : Backend) (req : RiskCheckRequest) : Bool :=
  match token_to_check req with
  | none => false
  | some t => decide (t ≠ "" ∧ b.is_safe_amount t req.amount = false)

/-- Condition under which check 4 adds its penalty. -/
def fromTrustFails (b : Backend) (req : RiskCheckRequest) : Bool :=
  match req.from_token with
  | none => false
  | some t => decide (t ≠ "" ∧ b.is_trusted_token t = false)

/-- Condition under which check 4b adds its penalty. -/
def toTrustFails (b : Backend) (req : RiskCheckRequest) : Bool :=
  match req.to_token with
  | none => false
  | some t => decide (t ≠ "" ∧ b.is_trusted_token t = false)

/-- Condition under which check 5 adds its penalty. -/
def recipientFails (req : RiskCheckRequest) : Bool :=
  match req.recipient_address with
  | none => false
  | some a => decide (a ≠ "" ∧ (validate_sui_address a).1 = false)

/-- The set of failing checks of a request under a backend. -/
def riskFlags (b : Backend) (req : RiskCheckRequest) : RiskFlags :=
  { gas := gasFails b req
    slippage := slippageFails b req
    amount := amountFails b req
    fromTrust := fromTrustFails b req
    toTrust := toTrustFails b req
    recipient := recipientFails req }

/-- Sum of the penalties of the failing checks (the running score of
`calculate_risk_score` before the `min(risk_score, 1.0)` cap). -/
def penaltySum (f : RiskFlags) : ℚ :=
  (if f.gas then 3/10 else 0) + (if f.slippage then 1/4 else 0)
  + (if f.amount then 1/4 else 0) + (if f.fromTrust then 3/10 else 0)
  + (if f.toTrust then 3/10 else 0) + (if f.recipient then 1/2 else 0)

/-- Final (capped) score as a function of the failing-check set. -/
def scoreOfFlags (f : RiskFlags) : ℚ :=
  min (penaltySum f) 1

/-- Pointwise inclusion of failing-check sets: every check failing in `f`
also fails in `g`. -/
def flagsLe (f g : RiskFlags) : Prop :=
  (f.gas = true → g.gas = true) ∧ (f.slippage = true → g.slippage = true)
  ∧ (f.amount = true → g.amount = true) ∧ (f.fromTrust = true → g.fromTrust = true)
  ∧ (f.toTrust = true → g.toTrust = true) ∧ (f.recipient = true → g.recipient = true)

instance (f g : RiskFlags) : Decidable (flagsLe f g) := by
  unfold flagsLe
  infer_instance

/-- Invariant claimed by the spec for the fact store: no stored triple has
an empty subject or an empty predicate. -/
def KnowledgeGraph.wellFormed (kg : KnowledgeGraph) : Prop :=
  ∀ t ∈ kg.facts, t.1 ≠ "" ∧ t.2.1 ≠ ""

instance (kg : KnowledgeGraph) : Decidable kg.wellFormed := by
  unfold KnowledgeGraph.wellFormed
  infer_instance

/-- Test vector: a swap request with `estimated_gas = 0.0` present. -/
def zeroGasRequest : RiskCheckRequest :=
  { transaction_type := "swap", amount := 10, estimated_gas := some 0 }

/-- Test vector of the spec example: swap with `estimated_gas = 1.0`,
`slippage_tolerance = 0.10`, `amount = 10`, `from_token = "SUI"`,
`to_token = "SCAMCOIN"`, no recipient. -/
def swapRiskRequest : RiskCheckRequest :=
  { transaction_type := "swap", from_token := some "SUI", to_token := some "SCAMCOIN",
    amount := 10, slippage_tolerance := some (1/10), estimated_gas := some 1 }

/-- Test vector: present-but-empty source token, destination `"SUI"`. -/
def emptyFromSuiRequest : RiskCheckRequest :=
  { transaction_type := "swap", from_token := some "", to_token := some "SUI",
    amount := 500 }

/-- Test vector: present-but-empty source token, destination `"USDC"`. -/
def emptyFromUsdcRequest : RiskCheckRequest :=
  { transaction_type := "swap", from_token := some "", to_token := some "USDC",
    amount := 500 }

theorem gasCheck_fst (b : Backend) (req : RiskCheckRequest) :
    (gasCheck b req).1 = if gasFails b req then (3/10 : ℚ) else 0 := by
  unfold gasCheck gasFails
  cases req.estimated_gas
  · rfl
  · rename_i g
    by_cases h : g ≠ 0 ∧ b.is_safe_gas g = false <;> simp [h]

theorem slippageCheck_fst (b : Backend) (req : RiskCheckRequest) :
    (slippageCheck b req).1 = if slippageFails b req then (1/4 : ℚ) else 0 := by
  unfold slippageCheck slippageFails
  cases req.slippage_tolerance
  · rfl
  · rename_i s
    by_cases h : s ≠ 0 ∧ b.is_safe_slippage s = false <;> simp [h]

theorem amountCheck_fst (b : Backend) (req : RiskCheckRequest) :
    (amountCheck b req).1 = if amountFails b req then (1/4 : ℚ) else 0 := by
  unfold amountCheck amountFails
  cases token_to_check req
  · rfl
  · rename_i t
    by_cases h : t ≠ "" ∧ b.is_safe_amount t req.amount = false <;> simp [h]

theorem fromTokenCheck_fst (b : Backend) (req : RiskCheckRequest) :
    (fromTokenCheck b req).1 = if fromTrustFails b req then (3/10 : ℚ) else 0 := by
  unfold fromTokenCheck fromTrustFails
  cases req.from_token
  · rfl
  · rename_i t
    by_cases h : t ≠ "" ∧ b.is_trusted_token t = false <;> simp [h]

theorem toTokenCheck_fst (b : Backend) (req : RiskCheckRequest) :
    (toTokenCheck b req).1 = if toTrustFails b req then (3/10 : ℚ) else 0 := by
  unfold toTokenCheck toTrustFails
  cases req.to_token
  · rfl
  · rename_i t
    by_cases h : t ≠ "" ∧ b.is_trusted_token t = false <;> simp [h]

theorem recipientCheck_fst (req : RiskCheckRequest) :
    (recipientCheck req).1 = if recipientFails req then (1/2 : ℚ) else 0 := by
  unfold recipientCheck recipientFails
  cases req.recipient_address
  · rfl
  · rename_i a
    by_cases h : a ≠ "" ∧ (validate_sui_address a).1 = false
    · cases hv : (validate_sui_address a).2 <;> simp [h, hv]
    · simp [h]

theorem calculate_risk_score_fst (b : Backend) (req : RiskCheckRequest) :
    (calculate_risk_score b req).1 = scoreOfFlags (riskFlags b req) := by
  unfold calculate_risk_score scoreOfFlags penaltySum riskFlags
  simp only [gasCheck_fst, slippageCheck_fst, amountCheck_fst, fromTokenCheck_fst,
    toTokenCheck_fst, recipientCheck_fst]

theorem calculate_risk_score_warnings (b : Backend) (req : RiskCheckRequest) :
    (calculate_risk_score b req).2.1 =
      (gasCheck b req).2.1 ++ (slippageCheck b req).2.1 ++ (amountCheck b req).2.1
      ++ (fromTokenCheck b req).2.1 ++ (toTokenCheck b req).2.1 ++ (recipientCheck req).2.1 := by
  rfl

theorem penaltySum_nonneg (f : RiskFlags) : 0 ≤ penaltySum f := by
  unfold penaltySum
  split_ifs <;> norm_num

theorem scoreOfFlags_nonneg (f : RiskFlags) : 0 ≤ scoreOfFlags f := by
  unfold scoreOfFlags
  exact le_min (penaltySum_nonneg f) (by norm_num)

theorem scoreOfFlags_le_one (f : RiskFlags) : scoreOfFlags f ≤ 1 :=
  min_le_right _ _

theorem ite_flag_le (a b : Bool) (c : ℚ) (hc : 0 ≤ c) (h : a = true → b = true) :
    (if a then c else 0) ≤ (if b then c else 0) := by
  cases a <;> cases b <;> simp_all

theorem penaltySum_mono (f g : RiskFlags) (h : flagsLe f g) :
    penaltySum f ≤ penaltySum g := by
  obtain ⟨h1, h2, h3, h4, h5, h6⟩ := h
  unfold penaltySum
  have g1 := ite_flag_le f.gas g.gas (3/10) (by norm_num) h1
  have g2 := ite_flag_le f.slippage g.slippage (1/4) (by norm_num) h2
  have g3 := ite_flag_le f.amount g.amount (1/4) (by norm_num) h3
  have g4 := ite_flag_le f.fromTrust g.fromTrust (3/10) (by norm_num) h4
  have g5 := ite_flag_le f.toTrust g.toTrust (3/10) (by norm_num) h5
  have g6 := ite_flag_le f.recipient g.recipient (1/2) (by norm_num) h6
  linarith

theorem scoreOfFlags_mono (f g : RiskFlags) (h : flagsLe f g) :
    scoreOfFlags f ≤ scoreOfFlags g := by
  unfold scoreOfFlags
  exact min_le_min (penaltySum_mono f g h) le_rfl

/-- C2: for every risk check request, the `is_safe` field of the returned
`RiskCheckResponse` is `true` if and only if the final (capped) risk score
computed by `calculate_risk_score` is strictly less than `0.6`, for every
backend and hence for every combination of check outcomes. -/
theorem is_safe_iff_score_below_threshold (b : Backend) (req : RiskCheckRequest) :
    (handle_risk_check b req).is_safe = true ↔ (calculate_risk_score b req).1 < 6/10 := by
  show decide ((calculate_risk_score b req).1 < 6/10) = true ↔ _
  exact decide_eq_true_iff

/-- C5: the fallback risk-level classification partitions `[0,1]` into the
four contiguous non-overlapping bands `low` (`s < 0.3`), `medium`
(`0.3 ≤ s < 0.6`), `high` (`0.6 ≤ s < 0.8`) and `critical` (`s ≥ 0.8`);
the boundary scores `0.3`, `0.6` and `0.8` classify as `medium`, `high`
and `critical`. -/
theorem fallback_risk_level_partition (s : ℚ) (h0 : 0 ≤ s) (h1 : s ≤ 1) :
    (fallbackBackend.get_risk_level_from_score s = "low" ↔ s < 3/10)
    ∧ (fallbackBackend.get_risk_level_from_score s = "medium" ↔ 3/10 ≤ s ∧ s < 6/10)
    ∧ (fallbackBackend.get_risk_level_from_score s = "high" ↔ 6/10 ≤ s ∧ s < 8/10)
    ∧ (fallbackBackend.get_risk_level_from_score s = "critical" ↔ 8/10 ≤ s)
    ∧ fallbackBackend.get_risk_level_from_score (3/10) = "medium"
    ∧ fallbackBackend.get_risk_level_from_score (6/10) = "high"
    ∧ fallbackBackend.get_risk_level_from_score (8/10) = "critical" := by
  have hcl : ∀ x : ℚ, fallbackBackend.get_risk_level_from_score x =
      if x < 3/10 then "low" else if x < 6/10 then "medium"
      else if x < 8/10 then "high" else "critical" := fun x => rfl
  simp only [hcl]
  refine ⟨?_, ?_, ?_, ?_, by norm_num, by norm_num, by norm_num⟩
  · split_ifs with hA hB hC
    · exact iff_of_true rfl hA
    · exact iff_of_false (by decide) hA
    · exact iff_of_false (by decide) hA
    · exact iff_of_false (by decide) hA
  · split_ifs with hA hB hC
    · exact iff_of_false (by decide) (fun h => absurd h.1 (not_le.mpr hA))
    · exact iff_of_true rfl ⟨not_lt.mp hA, hB⟩
    · exact iff_of_false (by decide) (fun h => hB h.2)
    · exact iff_of_false (by decide) (fun h => hB h.2)
  · split_ifs with hA hB hC
    · exact iff_of_false (by decide) (fun h => absurd h.1 (not_le.mpr (lt_trans hA (by norm_num))))
    · exact iff_of_false (by decide) (fun h => absurd h.1 (not_le.mpr hB))
    · exact iff_of_true rfl ⟨not_lt.mp hB, hC⟩
    · exact iff_of_false (by decide) (fun h => hC h.2)
  · split_ifs with hA hB hC
    · exact iff_of_false (by decide) (not_le.mpr (lt_trans hA (by norm_num)))
    · exact iff_of_false (by decide) (not_le.mpr (lt_trans hB (by norm_num)))
    · exact iff_of_false (by decide) (not_le.mpr hC)
    · exact iff_of_true rfl (not_lt.mp hC)

/-- Witness for C5 at the concrete score `1/2`. -/
theorem fallback_risk_level_partition_witness :
    fallbackBackend.get_risk_level_from_score (1/2) = "medium"
    ∧ fallbackBackend.get_risk_level_from_score (3/10) = "medium" := by
  have h := fallback_risk_level_partition (1/2) (by norm_num) (by norm_num)
  exact ⟨(h.2.1).mpr (by norm_num), h.2.2.2.2.1⟩

/-- C6: the final risk score always lies in `[0,1]`, equals the sum of the
non-negative penalties of the failing checks capped at `1.0`, and the
capped score is monotone in the set of failing checks: a superset of
failures yields a score at least as large. -/
theorem risk_score_bounded_and_monotone :
    (∀ (b : Backend) (req : RiskCheckRequest),
        0 ≤ (calculate_risk_score b req).1 ∧ (calculate_risk_score b req).1 ≤ 1
          ∧ (calculate_risk_score b req).1 = min (penaltySum (riskFlags b req)) 1)
    ∧ ∀ f g : RiskFlags, flagsLe f g → scoreOfFlags f ≤ scoreOfFlags g := by
  constructor
  · intro b req
    rw [calculate_risk_score_fst b req]
    exact ⟨scoreOfFlags_nonneg _, scoreOfFlags_le_one _, rfl⟩
  · exact scoreOfFlags_mono

/-- Witness for C6 on the concrete inclusion of no failures into a
gas-and-slippage failure set. -/
theorem risk_score_bounded_and_monotone_witness :
    scoreOfFlags ⟨false, false, false, false, false, false⟩
      ≤ scoreOfFlags ⟨true, true, false, false, false, false⟩ :=
  risk_score_bounded_and_monotone.2 _ _ (by decide)

/-- C8: `validate_sui_address` accepts exactly the strings made of the
prefix `0x` followed by 64 hexadecimal digits, and on every other input
returns `false` with the specific error message of the violated condition
(empty input, missing prefix, wrong length reporting the actual remainder
length, or non-hexadecimal characters); in particular `0x` plus 64 `a`s is
valid, `0x` plus 63 `a`s reports the length mismatch, and a string without
the prefix reports the prefix error. -/
theorem validate_sui_address_spec :
    (∀ a : String, (validate_sui_address a).1 = true ↔
        (a.data.take 2 = ['0', 'x'] ∧ (a.data.drop 2).length = 64
          ∧ (a.data.drop 2).all isHexChar = true))
    ∧ (∀ a : String, (validate_sui_address a).1 = true → (validate_sui_address a).2 = none)
    ∧ validate_sui_address "" = (false, some "Address is empty")
    ∧ (∀ a : String, a.data ≠ [] → a.data.take 2 ≠ ['0', 'x'] →
        validate_sui_address a = (false, some "Address must start with 0x"))
    ∧ (∀ a : String, a.data.take 2 = ['0', 'x'] → (a.data.drop 2).length ≠ 64 →
        validate_sui_address a = (false, some ("Address must be 64 hex characters (got "
          ++ toString (a.data.drop 2).length ++ ")")))
    ∧ (∀ a : String, a.data.take 2 = ['0', 'x'] → (a.data.drop 2).length = 64 →
        (a.data.drop 2).all isHexChar = false →
        validate_sui_address a = (false, some "Address contains invalid characters"))
    ∧ validate_sui_address ("0x" ++ String.mk (List.replicate 64 'a')) = (true, none)
    ∧ validate_sui_address ("0x" ++ String.mk (List.replicate 63 'a'))
        = (false, some "Address must be 64 hex characters (got 63)")
    ∧ validate_sui_address "abc" = (false, some "Address must start with 0x") := by
  refine ⟨?_, ?_, by decide, ?_, ?_, ?_, by decide, by decide, by decide⟩
  · intro a
    unfold validate_sui_address
    split_ifs with h1 h2 h3 h4 <;> simp_all
  · intro a h
    unfold validate_sui_address at h ⊢
    split_ifs at h ⊢ <;> simp_all
  · intro a h1 h2
    unfold validate_sui_address
    rw [if_neg h1, if_pos h2]
  · intro a hpre hlen
    have hne : a.data ≠ [] := by
      intro he
      rw [he] at hpre
      simp at hpre
    unfold validate_sui_address
    rw [if_neg hne, if_neg (not_not_intro hpre), if_pos hlen]
  · intro a hpre hlen hall
    have hne : a.data ≠ [] := by
      intro he
      rw [he] at hpre
      simp at hpre
    unfold validate_sui_address
    rw [if_neg hne, if_neg (not_not_intro hpre), if_neg (not_not_intro hlen), if_pos hall]

/-- Witness for C8 on the concrete input `"zz"`, which misses the `0x`
prefix. -/
theorem validate_sui_address_spec_witness :
    validate_sui_address "zz" = (false, some "Address must start with 0x") :=
  validate_sui_address_spec.2.2.2.1 "zz" (by decide) (by decide)

theorem fb_gas (g : ℚ) :
    fallbackBackend.is_safe_gas g = decide (0 < g ∧ g < 1/2) := rfl

theorem fb_slippage (s : ℚ) :
    fallbackBackend.is_safe_slippage s = decide (0 ≤ s ∧ s ≤ 5/100) := rfl

theorem fb_amount (t : String) (a : ℚ) :
    fallbackBackend.is_safe_amount t a
      = decide (1/100 < a ∧ a < amount_limit (strUpper t)) := rfl

theorem fb_level (x : ℚ) :
    fallbackBackend.get_risk_level_from_score x
      = if x < 3/10 then "low" else if x < 6/10 then "medium"
        else if x < 8/10 then "high" else "critical" := rfl

theorem handle_risk_level_eq (b : Backend) (req : RiskCheckRequest) :
    (handle_risk_check b req).risk_level
      = b.get_risk_level_from_score (calculate_risk_score b req).1 := rfl

theorem handle_is_safe_eq (b : Backend) (req : RiskCheckRequest) :
    (handle_risk_check b req).is_safe
      = decide ((calculate_risk_score b req).1 < 6/10) := rfl

/-- C1 counterexample: with `estimated_gas = 0.0` present, the fallback
gas predicate rejects the value, yet `calculate_risk_score` adds no
penalty and raises no warning, because `if request.estimated_gas:` is
false at `0.0` (Python truthiness) and the whole gas check is skipped. -/
theorem gas_check_skipped_at_zero_counterexample :
    fallbackBackend.is_safe_gas 0 = false
    ∧ (calculate_risk_score fallbackBackend zeroGasRequest).1 = 0
    ∧ (calculate_risk_score fallbackBackend zeroGasRequest).2.1 = [] := by
  have hflags : riskFlags fallbackBackend zeroGasRequest
      = ⟨false, false, false, false, false, false⟩ := by
    simp [riskFlags, gasFails, slippageFails, amountFails, fromTrustFails, toTrustFails,
      recipientFails, token_to_check, zeroGasRequest]
  refine ⟨?_, ?_, ?_⟩
  · rw [fb_gas]
    exact decide_eq_false (by norm_num)
  · rw [calculate_risk_score_fst, hflags]
    unfold scoreOfFlags penaltySum
    norm_num
  · have hgc : gasCheck fallbackBackend zeroGasRequest = (0, [], []) := by
      simp [gasCheck, zeroGasRequest]
    rw [calculate_risk_score_warnings, hgc]
    rfl

/-- C1 amended: under the fallback backend `is_safe_gas g` holds iff
`0 < g < 0.5`, and for every request whose `estimated_gas` is present and
nonzero and fails `is_safe_gas`, `calculate_risk_score` adds the `+0.30`
gas penalty to the pre-cap sum and appends the gas warning and its
recommendation; with `estimated_gas = 0.0` the gas check is skipped. -/
theorem gas_penalty_amended :
    (∀ g : ℚ, fallbackBackend.is_safe_gas g = true ↔ (0 < g ∧ g < 1/2))
    ∧ ∀ (req : RiskCheckRequest) (g : ℚ), req.estimated_gas = some g → g ≠ 0 →
        fallbackBackend.is_safe_gas g = false →
        gasWarning g ∈ (calculate_risk_score fallbackBackend req).2.1
        ∧ gasRecommendation ∈ (calculate_risk_score fallbackBackend req).2.2
        ∧ penaltySum (riskFlags fallbackBackend req)
            = 3/10 + penaltySum { riskFlags fallbackBackend req with gas := false } := by
  constructor
  · intro g
    rw [fb_gas]
    exact decide_eq_true_iff
  · intro req g hg hne hunsafe
    have hc1 : gasCheck fallbackBackend req = (3/10, [gasWarning g], [gasRecommendation]) := by
      unfold gasCheck
      rw [hg]
      simp [hne, hunsafe]
    have hgf : gasFails fallbackBackend req = true := by
      unfold gasFails
      rw [hg]
      simp [hne, hunsafe]
    refine ⟨?_, ?_, ?_⟩
    · rw [calculate_risk_score_warnings, hc1]
      simp
    · show gasRecommendation ∈ (calculate_risk_score fallbackBackend req).2.2
      unfold calculate_risk_score
      rw [hc1]
      simp
    · have hz : (if (false = true) then (3:ℚ)/10 else 0) = 0 := by simp
      simp only [penaltySum, riskFlags, hgf, if_true, hz, add_zero]
      ring

/-- Witness for the amended C1 at `estimated_gas = 1.0`. -/
theorem gas_penalty_amended_witness :
    gasWarning 1 ∈ (calculate_risk_score fallbackBackend
      { transaction_type := "swap", amount := 10, estimated_gas := some 1 }).2.1 :=
  (gas_penalty_amended.2
    { transaction_type := "swap", amount := 10, estimated_gas := some 1 }
    1 rfl (by norm_num)
    (by rw [fb_gas]; exact decide_eq_false (by norm_num))).1

/-- C3: the swap request with `estimated_gas = 1.0`,
`slippage_tolerance = 0.10`, `amount = 10`, `from_token = "SUI"`,
`to_token = "SCAMCOIN"` and no recipient fails exactly the gas, slippage
and destination-trust checks under the fallback backend, scores
`0.85 = 0.30 + 0.25 + 0.30` with three warnings and three
recommendations, classifies as `critical`, and is not safe. -/
theorem swap_example_critical :
    riskFlags fallbackBackend swapRiskRequest = ⟨true, true, false, false, true, false⟩
    ∧ (calculate_risk_score fallbackBackend swapRiskRequest).1 = 17/20
    ∧ (calculate_risk_score fallbackBackend swapRiskRequest).2.1
        = [gasWarning 1, slippageWarning (1/10), trustWarning "SCAMCOIN"]
    ∧ (handle_risk_check fallbackBackend swapRiskRequest).risk_level = "critical"
    ∧ (handle_risk_check fallbackBackend swapRiskRequest).is_safe = false := by
  have hga : fallbackBackend.is_safe_gas 1 = false := by
    rw [fb_gas]; exact decide_eq_false (by norm_num)
  have hsl : fallbackBackend.is_safe_slippage (1/10) = false := by
    rw [fb_slippage]; exact decide_eq_false (by norm_num)
  have hsl2 : fallbackBackend.is_safe_slippage ((10:ℚ)⁻¹) = false := by
    rw [fb_slippage]; exact decide_eq_false (by norm_num)
  have hup : strUpper "SUI" = "SUI" := by decide
  have ham : fallbackBackend.is_safe_amount "SUI" 10 = true := by
    rw [fb_amount, hup]
    exact decide_eq_true (by norm_num [amount_limit])
  have htr1 : fallbackBackend.is_trusted_token "SUI" = true := by decide
  have htr2 : fallbackBackend.is_trusted_token "SCAMCOIN" = false := by decide
  have hs10 : ((1:ℚ)/10) ≠ 0 := by norm_num
  have hflags : riskFlags fallbackBackend swapRiskRequest
      = ⟨true, true, false, false, true, false⟩ := by
    simp [riskFlags, gasFails, slippageFails, amountFails, fromTrustFails, toTrustFails,
      recipientFails, token_to_check, swapRiskRequest, hga, hsl, hsl2, ham, htr1, htr2, hs10]
  have hscore : (calculate_risk_score fallbackBackend swapRiskRequest).1 = 17/20 := by
    rw [calculate_risk_score_fst, hflags]
    unfold scoreOfFlags penaltySum
    norm_num
  have hc1 : gasCheck fallbackBackend swapRiskRequest
      = (3/10, [gasWarning 1], [gasRecommendation]) := by
    simp [gasCheck, swapRiskRequest, hga]
  have hc2 : slippageCheck fallbackBackend swapRiskRequest
      = (1/4, [slippageWarning (1/10)], [slippageRecommendation]) := by
    simp [slippageCheck, swapRiskRequest, hsl, hsl2, hs10]
  have hc3 : amountCheck fallbackBackend swapRiskRequest = (0, [], []) := by
    simp [amountCheck, token_to_check, swapRiskRequest, ham]
  have hc4 : fromTokenCheck fallbackBackend swapRiskRequest = (0, [], []) := by
    simp [fromTokenCheck, swapRiskRequest, htr1]
  have hc5 : toTokenCheck fallbackBackend swapRiskRequest
      = (3/10, [trustWarning "SCAMCOIN"], [trustRecommendation]) := by
    simp [toTokenCheck, swapRiskRequest, htr2]
  have hc6 : recipientCheck swapRiskRequest = (0, [], []) := rfl
  refine ⟨hflags, hscore, ?_, ?_, ?_⟩
  · rw [calculate_risk_score_warnings, hc1, hc2, hc3, hc4, hc5, hc6]
    rfl
  · rw [handle_risk_level_eq, hscore, fb_level]
    norm_num
  · rw [handle_is_safe_eq, hscore]
    exact decide_eq_false (by norm_num)

/-- C4 counterexample: `add_fact` performs no validation, so inserting a
triple with an empty subject into a store satisfying the invariant leaves
a stored triple with an empty subject. -/
theorem add_fact_empty_subject_counterexample :
    KnowledgeGraph.empty.wellFormed
    ∧ (KnowledgeGraph.empty.add_fact "" "p" "o").facts = [("", "p", "o")]
    ∧ ¬ (KnowledgeGraph.empty.add_fact "" "p" "o").wellFormed := by
  refine ⟨by decide, by decide, ?_⟩
  intro h
  exact absurd (h ("", "p", "o") (by decide)).1 (by decide)

/-- C4 amended: `add_fact` preserves the no-empty-subject-or-predicate
invariant whenever the inserted subject and predicate are themselves
non-empty, and `add_facts_batch` preserves it whenever every triple of the
batch has a non-empty subject and predicate. -/
theorem add_fact_preserves_wellFormed_amended :
    (∀ (kg : KnowledgeGraph) (s p o : String), kg.wellFormed → s ≠ "" → p ≠ "" →
        (kg.add_fact s p o).wellFormed)
    ∧ ∀ (kg : KnowledgeGraph) (fs : List Triple), kg.wellFormed →
        (∀ f ∈ fs, f.1 ≠ "" ∧ f.2.1 ≠ "") → (kg.add_facts_batch fs).wellFormed := by
  have hadd : ∀ (kg : KnowledgeGraph) (s p o : String), kg.wellFormed → s ≠ "" → p ≠ "" →
      (kg.add_fact s p o).wellFormed := by
    intro kg s p o hkg hs hp
    unfold KnowledgeGraph.add_fact
    split
    · exact hkg
    · intro t ht
      rcases List.mem_append.mp ht with h | h
      · exact hkg t h
      · rcases List.mem_singleton.mp h with rfl
        exact ⟨hs, hp⟩
  refine ⟨hadd, ?_⟩
  intro kg fs
  induction fs generalizing kg with
  | nil => intro hkg _; exact hkg
  | cons f fs ih =>
    intro hkg hfs
    show ((kg.add_fact f.1 f.2.1 f.2.2).add_facts_batch fs).wellFormed
    exact ih (kg.add_fact f.1 f.2.1 f.2.2)
      (hadd kg f.1 f.2.1 f.2.2 hkg (hfs f (List.mem_cons_self f fs)).1
        (hfs f (List.mem_cons_self f fs)).2)
      (fun g hg => hfs g (List.mem_cons_of_mem f hg))

/-- Witness for the amended C4 on a concrete insertion. -/
theorem add_fact_preserves_wellFormed_amended_witness :
    (KnowledgeGraph.empty.add_fact "Cetus" "is_type" "DEX").wellFormed :=
  add_fact_preserves_wellFormed_amended.1 KnowledgeGraph.empty "Cetus" "is_type" "DEX"
    (by decide) (by decide) (by decide)

/-- C10 counterexample: two requests sharing the present source token
`from_token = ""` but differing in `to_token` get different amount-check
outcomes (the code falls through to `to_token` because the empty string is
falsy), even though `is_safe_amount` with the source token and the amount
`500` would report safe. -/
theorem amount_check_source_counterexample :
    emptyFromSuiRequest.from_token = emptyFromUsdcRequest.from_token
    ∧ (amountCheck fallbackBackend emptyFromSuiRequest).1 = 1/4
    ∧ (amountCheck fallbackBackend emptyFromUsdcRequest).1 = 0
    ∧ fallbackBackend.is_safe_amount "" 500 = true
    ∧ token_to_check emptyFromSuiRequest = some "SUI" := by
  have hupS : strUpper "SUI" = "SUI" := by decide
  have hupU : strUpper "USDC" = "USDC" := by decide
  have hupE : strUpper "" = "" := by decide
  have hamS : fallbackBackend.is_safe_amount "SUI" 500 = false := by
    rw [fb_amount, hupS]
    exact decide_eq_false (by norm_num [amount_limit])
  have hlimU : amount_limit "USDC" = 10000 := by
    unfold amount_limit
    rw [if_neg (by decide), if_pos rfl]
  have hlimE : amount_limit "" = 1000 := by
    unfold amount_limit
    rw [if_neg (by decide), if_neg (by decide), if_neg (by decide)]
  have hamU : fallbackBackend.is_safe_amount "USDC" 500 = true := by
    rw [fb_amount, hupU]
    exact decide_eq_true (by rw [hlimU]; norm_num)
  refine ⟨rfl, ?_, ?_, ?_, by decide⟩
  · simp [amountCheck, token_to_check, emptyFromSuiRequest, hamS]
  · simp [amountCheck, token_to_check, emptyFromUsdcRequest, hamU]
  · rw [fb_amount, hupE]
    exact decide_eq_true (by rw [hlimE]; norm_num)

/-- C10 amended: the amount check consults `from_token` whenever it is
present and non-empty (its outcome then depends only on that token and
the amount, and `is_safe_amount` is not consulted with `to_token`), and
falls back to `to_token` when `from_token` is absent. -/
theorem amount_check_token_selection_amended :
    (∀ (b : Backend) (req : RiskCheckRequest) (t : String),
        req.from_token = some t → t ≠ "" →
        token_to_check req = some t
        ∧ amountCheck b req =
            (if b.is_safe_amount t req.amount = false then
              ((1:ℚ)/4, [amountWarning req.amount t], [amountRecommendation])
            else (0, [], [])))
    ∧ ∀ req : RiskCheckRequest, req.from_token = none →
        token_to_check req = req.to_token := by
  constructor
  · intro b req t hf ht
    have htc : token_to_check req = some t := by
      unfold token_to_check
      rw [hf]
      exact if_neg ht
    refine ⟨htc, ?_⟩
    unfold amountCheck
    rw [htc]
    by_cases hs : b.is_safe_amount t req.amount = false <;> simp [ht, hs]
  · intro req h
    unfold token_to_check
    rw [h]

/-- Witness for the amended C10 with source token `"SUI"`. -/
theorem amount_check_token_selection_amended_witness :
    token_to_check
        { transaction_type := "swap", from_token := some "SUI",
          to_token := some "USDC", amount := 1 } = some "SUI" :=
  (amount_check_token_selection_amended.1 fallbackBackend
    { transaction_type := "swap", from_token := some "SUI",
      to_token := some "USDC", amount := 1 } "SUI" rfl (by decide)).1

theorem maxBySnd_mem (best : String × ℤ) (l : List (String × ℤ)) :
    maxBySnd best l = best ∨ maxBySnd best l ∈ l := by
  induction l generalizing best with
  | nil => exact Or.inl rfl
  | cons x xs ih =>
    unfold maxBySnd
    split
    · rcases ih x with h | h
      · exact Or.inr (by rw [h]; exact List.mem_cons_self x xs)
      · exact Or.inr (List.mem_cons_of_mem x h)
    · rcases ih best with h | h
      · exact Or.inl h
      · exact Or.inr (List.mem_cons_of_mem x h)

theorem maxBySnd_ge (best : String × ℤ) (l : List (String × ℤ)) :
    best.2 ≤ (maxBySnd best l).2 ∧ ∀ x ∈ l, x.2 ≤ (maxBySnd best l).2 := by
  induction l generalizing best with
  | nil => exact ⟨le_refl _, fun x hx => absurd hx (List.not_mem_nil x)⟩
  | cons x xs ih =>
    unfold maxBySnd
    split
    · rename_i hlt
      obtain ⟨h1, h2⟩ := ih x
      refine ⟨le_of_lt (lt_of_lt_of_le hlt h1), ?_⟩
      intro y hy
      rcases List.mem_cons.mp hy with rfl | hy2
      · exact h1
      · exact h2 y hy2
    · rename_i hlt
      obtain ⟨h1, h2⟩ := ih best
      refine ⟨h1, ?_⟩
      intro y hy
      rcases List.mem_cons.mp hy with rfl | hy2
      · exact le_trans (not_lt.mp hlt) h1
      · exact h2 y hy2

theorem maxBySnd_map_spec (score : String → ℤ) (d : String) (ds : List String) :
    (maxBySnd (d, score d) (ds.map (fun x => (x, score x)))).1 ∈ d :: ds
    ∧ ∀ e ∈ d :: ds,
        score e ≤ score (maxBySnd (d, score d) (ds.map (fun x => (x, score x)))).1 := by
  have hsnd : (maxBySnd (d, score d) (ds.map (fun x => (x, score x)))).2
      = score (maxBySnd (d, score d) (ds.map (fun x => (x, score x)))).1 := by
    rcases maxBySnd_mem (d, score d) (ds.map (fun x => (x, score x))) with h | h
    · rw [h]
    · rcases List.mem_map.mp h with ⟨x, _, hxe⟩
      rw [← hxe]
  obtain ⟨h1, h2⟩ := maxBySnd_ge (d, score d) (ds.map (fun x => (x, score x)))
  constructor
  · rcases maxBySnd_mem (d, score d) (ds.map (fun x => (x, score x))) with h | h
    · rw [h]
      exact List.mem_cons_self _ _
    · rcases List.mem_map.mp h with ⟨x, hx, hxe⟩
      rw [← hxe]
      exact List.mem_cons_of_mem d hx
  · intro e he
    rcases List.mem_cons.mp he with rfl | he2
    · rw [← hsnd]
      exact h1
    · have hmem : (e, score e) ∈ ds.map (fun x => (x, score x)) :=
        List.mem_map.mpr ⟨e, he2, rfl⟩
      have := h2 (e, score e) hmem
      rw [hsnd] at this
      exact this

set_option maxRecDepth 8000 in
/-- C7: `infer_best_dex` returns `none` exactly when no subject has a
`supports_pair` fact for the key `"{tokenIn}/{tokenOut}"`; otherwise it
returns a supporting venue whose liquidity + risk score is maximal among
all supporting venues; over the seed knowledge base the pair
`SUI/NONEXISTENT` has no supporting venue so the result is `none`. -/
theorem infer_best_dex_spec :
    (∀ (kg : KnowledgeGraph) (tin tout : String),
        kg.infer_best_dex tin tout = none ↔
          kg.query none (some "supports_pair") (some (tin ++ "/" ++ tout)) = [])
    ∧ (∀ (kg : KnowledgeGraph) (tin tout d : String),
        kg.infer_best_dex tin tout = some d →
          d ∈ (kg.query none (some "supports_pair") (some (tin ++ "/" ++ tout))).map
              (fun f => f.1)
          ∧ ∀ e ∈ (kg.query none (some "supports_pair") (some (tin ++ "/" ++ tout))).map
              (fun f => f.1),
              dexScore kg (tin ++ "/" ++ tout) e ≤ dexScore kg (tin ++ "/" ++ tout) d)
    ∧ create_sui_defi_knowledge_base.infer_best_dex "SUI" "NONEXISTENT" = none := by
  refine ⟨?_, ?_, by decide⟩
  · intro kg tin tout
    unfold KnowledgeGraph.infer_best_dex
    cases hq : kg.query none (some "supports_pair") (some (tin ++ "/" ++ tout)) with
    | nil => simp [hq]
    | cons f fs => simp [hq]
  · intro kg tin tout d hsome
    unfold KnowledgeGraph.infer_best_dex at hsome
    cases hq : kg.query none (some "supports_pair") (some (tin ++ "/" ++ tout)) with
    | nil => simp [hq] at hsome
    | cons f fs =>
      simp only [hq, List.map_cons] at hsome
      have hd : (maxBySnd (f.1, dexScore kg (tin ++ "/" ++ tout) f.1)
          ((fs.map (fun t => t.1)).map
            (fun dex => (dex, dexScore kg (tin ++ "/" ++ tout) dex)))).1 = d :=
        Option.some.inj hsome
      obtain ⟨hmem, hmax⟩ := maxBySnd_map_spec
        (fun x => dexScore kg (tin ++ "/" ++ tout) x) f.1 (fs.map (fun t => t.1))
      rw [hd] at hmem hmax
      constructor
      · rw [List.map_cons]
        exact hmem
      · intro e he
        rw [List.map_cons] at he
        exact hmax e he

set_option maxRecDepth 8000 in
/-- Witness for C7 over the seed knowledge base on the pair `SUI/USDC`
(supported by Cetus with score 20 and Turbos with score 10). -/
theorem infer_best_dex_spec_witness :
    "Cetus" ∈ (create_sui_defi_knowledge_base.query none (some "supports_pair")
        (some ("SUI" ++ "/" ++ "USDC"))).map (fun f => f.1) :=
  (infer_best_dex_spec.2.1 create_sui_defi_knowledge_base "SUI" "USDC" "Cetus" (by decide)).1

theorem mem_listToSet (l : List Triple) : ∀ t, t ∈ listToSet l ↔ t ∈ l := by
  induction l with
  | nil =>
    intro t
    simp [listToSet]
  | cons x xs ih =>
    intro t
    unfold listToSet
    split
    · rename_i hx
      rw [ih t, List.mem_cons]
      constructor
      · exact Or.inr
      · rintro (rfl | h)
        · exact (ih t).mp hx
        · exact h
    · rw [List.mem_cons, List.mem_cons, ih t]

/-- C9: restoring a knowledge graph from its snapshot preserves the fact
set exactly: a triple is in the restored store iff it is in the original
store. -/
theorem snapshot_roundtrip (kg : KnowledgeGraph) (t : Triple) :
    t ∈ (KnowledgeGraph.from_json kg.to_json).facts ↔ t ∈ kg.facts := by
  have hfacts : (KnowledgeGraph.from_json kg.to_json).facts
      = listToSet ((kg.facts.map factToJson).filterMap jsonToFact) := rfl
  have hcomp : (jsonToFact ∘ factToJson) = some := by
    funext f
    rcases f with ⟨a, b, c⟩
    rfl
  rw [hfacts, mem_listToSet, List.filterMap_map, hcomp, List.filterMap_some]
